import Mathlib

/-!
Verification of the GitHub-account signup automation script (src/index.js)
against its natural-language specification.  The script is shallowly embedded:
pure helpers become Lean functions; each browser-driving step function becomes
a function from an abstract page oracle to the list of primitive browser
actions it performs (its trace) together with its result (normal return or a
thrown value); the two `Promise.all` concurrency sites become relations over
interleavings of the component traces.
-/

/- ### Pure helpers -/

/-- Embeds the character-class test of the regex `[^a-zA-Z0-9]` used at
src/index.js:425 (a character is kept iff it is an ASCII letter or digit;
the regex replaces every other character). The numeric bounds are the ASCII
codes of `a`..`z`, `A`..`Z`, `0`..`9`. -/
def isAsciiAlphanumeric (c : Char) : Bool :=
  (97 ≤ c.val && c.val ≤ 122) || (65 ≤ c.val && c.val ≤ 90) || (48 ≤ c.val && c.val ≤ 57)

/-- Embeds the username derivation of src/index.js:425,
`email.split("@")[0].replace(/[^a-zA-Z0-9]/g, 'x')`: JavaScript
`split("@")[0]` is the substring before the first `@` (the whole string when
no `@` occurs), modelled by `takeWhile`; `replace` maps every character not in
`[a-zA-Z0-9]` to the filler `'x'`. -/
def deriveUsername (email : String) : String :=
  String.mk ((email.data.takeWhile (fun c => c ≠ '@')).map
    (fun c => if isAsciiAlphanumeric c then c else 'x'))

/-- Embeds the body of generatePassword (src/index.js:19-21) for a
non-negative length: `crypto.randomFillSync(new Uint32Array(length))` yields
`length` independent 32-bit values, abstracted as a stream `rand` of natural
numbers each reduced mod 2^32; `characters[x % characters.length]` indexes the
alphabet.  The `getD` default is never reached for a non-empty alphabet since
`_ % characters.length < characters.length`; the claims about this function
all assume a non-empty alphabet (JavaScript would produce the text
`undefined` per draw on an empty one). -/
def passwordChars (len : Nat) (characters : String) (rand : Nat → Nat) : List Char :=
  (List.range len).map (fun i => characters.data.getD ((rand i % 2 ^ 32) % characters.length) 'x')

/-- Embeds generatePassword (src/index.js:15-22).  For a negative length the
very first step, `new Uint32Array(length)`, throws a RangeError (JavaScript
ToIndex rejects negative lengths), so the function never returns a string;
otherwise it returns the string of `length` drawn characters. -/
def generatePassword (length : Int) (characters : String) (rand : Nat → Nat) :
    Except String String :=
  if length < 0 then Except.error "RangeError: Invalid typed array length"
  else Except.ok (String.mk (passwordChars length.toNat characters rand))

/-- Embeds the default `characters` argument of generatePassword
(src/index.js:17), copied verbatim from the source. -/
def defaultPasswordChars : String :=
  "0123456789ABCDEFGHIJKLMNOPQRSTUVWXYZabcdefghijklmnopqrstuvwxyz~!@-#$"

/-- Embeds the default `length` argument of generatePassword (src/index.js:16). -/
def defaultPasswordLength : Int := 20

/- ### Browser-action model -/

/-- Primitive observable browser actions performed by the script.  Each
constructor corresponds to one kind of awaited puppeteer call in src/index.js:
`waitXPath sel tz vis` is `page.waitForXPath(sel, ...)` where `tz` records
whether `timeout: 0` (no timeout) was passed and `vis` whether
`visible: true` was passed; `queryXPath` is `page.$x`; `delay` is
`page.waitForTimeout(getRandomTimeout())`; `clickEl` is an `el.click()`
performed through `evaluate` on the element handle with the given id;
`mouseClick` is `page.mouse.click` at computed coordinates; `navWait tz` is
`page.waitForNavigation` (`tz` = whether `timeout: 0` was passed);
`invoke f` records entry into the source function named `f`. -/
inductive Event where
  | consoleLog (s : String)
  | browserOpen
  | browserClose
  | goto (url : String)
  | waitXPath (sel : String) (timeoutZero : Bool) (visible : Bool)
  | queryXPath (sel : String)
  | delay
  | typeText (s : String)
  | mouseClick
  | clickEl (id : Nat)
  | navWait (timeoutZero : Bool)
  | fileChooserWait
  | fileAccept (path : String)
  | invoke (fn : String)
deriving DecidableEq, Repr

/-- Abstraction of a puppeteer element handle: its identity, whether
`window.getComputedStyle(el).visibility === 'hidden'` (src/index.js:54), and
whether `el.getAttribute('hidden') === null` (src/index.js:106). -/
structure ElemHandle where
  id : Nat
  visibilityHidden : Bool
  hiddenAttrNull : Bool
deriving DecidableEq, Repr

/-- Oracle for the remote page: the element handles `page.$x(sel)` returns
for each XPath selector.  The embedded `waitForXPath` calls are modelled as
always eventually succeeding (they only contribute trace events); the `$x`
results drive every data-dependent branch of the script. -/
structure Page where
  xpath : String → List ElemHandle

/- XPath selector strings, verbatim from src/index.js. -/

def selEmailLabel : String := "//label[contains(., \"Enter your email\")]"
def selEmailError : String := "//p[contains(., \"Email is invalid or already taken\")]"
def selContinueAny : String := "//button[contains(., \"Continue\")]"
def selContinueEnabled : String := "//button[contains(., \"Continue\")][not(@disabled)]"
def selPasswordLabel : String := "//label[contains(., \"Create a password\")]"
def selUsernameLabel : String := "//label[contains(., \"Enter a username\")]"
def selAnnouncementsLabel : String :=
  "//label[contains(., \"Would you like to receive product updates and\")]"
def selCreateAccount : String := "//button[contains(., \"Create account\")]"
def selCreateAccountEnabled : String := "//button[contains(., \"Create account\")][not(@disabled)]"
def selJustMe : String := "//label[contains(., \"Just me\")]"
def selNA : String := "//label[contains(., \"N/A\")]"
def selContinueForFree : String := "//a[contains(., \"Continue for free\")][not(@disabled)]"
def selFilterSummary : String := "//summary[contains(., \"Filter\")]"
def selSettingsSpan : String := "//span[contains(., \"Settings\")]"
def selEditSummary : String := "//summary[contains(., \"Edit\")]"
def selUploadPhoto : String := "//label[contains(., \"Upload a photo…\")]"
def selSetNewPicture : String := "//button[contains(., \"Set new profile picture\")]"

/-- Behaviour of one embedded async function: the trace of actions it
performed, and either normal completion or the thrown value. -/
abbrev StepRun := List Event × Except String Unit

/-- Sequential composition of two awaited calls: if the first throws, the
second never runs and the throw propagates (JavaScript `await` semantics). -/
def seqStep (a b : StepRun) : StepRun :=
  match a.2 with
  | Except.error e => (a.1, Except.error e)
  | Except.ok _ => (a.1 ++ b.1, b.2)

/-- Prepends unconditionally-performed actions to a behaviour. -/
def withEvents (evs : List Event) (b : StepRun) : StepRun :=
  (evs ++ b.1, b.2)

/-- Embeds the recurring pattern `const [x] = await page.$x(sel)` followed by
actions on `x` (a click through `evaluate`, or a bounding-box read plus a
mouse click): when `$x` finds no element, the destructured variable is
`undefined` and the first property access on it throws a TypeError; otherwise
the continuation's actions on the first handle are performed. -/
def requireHead (hs : List ElemHandle) (k : ElemHandle → List Event) : StepRun :=
  match hs.head? with
  | none => ([], Except.error "TypeError: Cannot read properties of undefined")
  | some h => (k h, Except.ok ())

/-- Embeds clickVisibleContinue (src/index.js:52-60): walk the handles in
order; on the first whose computed-style visibility is not `hidden`, click it
and break; if none qualifies, fall through and resolve normally. -/
def clickVisibleContinue : List ElemHandle → StepRun
  | [] => ([], Except.ok ())
  | b :: bs =>
    if b.visibilityHidden then clickVisibleContinue bs
    else ([Event.clickEl b.id], Except.ok ())

/-- Embeds clickOnEmailField (src/index.js:71-90): wait (no timeout, visible)
for the email label, query it, read its bounding box and click next to its
top-left corner.  When `$x` finds nothing, `emailLabel` is `undefined` and
`emailLabel.evaluate` throws a TypeError. -/
def clickOnEmailField (pg : Page) : StepRun :=
  withEvents
    [Event.invoke "clickOnEmailField",
     Event.waitXPath selEmailLabel true true,
     Event.queryXPath selEmailLabel]
    (requireHead (pg.xpath selEmailLabel) (fun _ => [Event.mouseClick]))

/-- Embeds checkEmailExistOrInvalid (src/index.js:102-112): query the error
paragraph, wait a random delay, and if the paragraph exists with its `hidden`
attribute null (error shown) take the failure branch.  That branch executes
`await browser.close()` — but `browser` is a free identifier there: it is not
a parameter of the function and no module-level `browser` binding exists in
src/index.js, so in this ES module evaluating it throws
`ReferenceError: browser is not defined`.  The browser is therefore not
closed and the subsequent `throw "Email exist"` (line 109) is never reached. -/
def checkEmailExistOrInvalid (pg : Page) : StepRun :=
  withEvents
    [Event.invoke "checkEmailExistOrInvalid",
     Event.queryXPath selEmailError,
     Event.delay]
    (match (pg.xpath selEmailError).head? with
     | none => ([], Except.ok ())
     | some p =>
       if p.hiddenAttrNull then ([], Except.error "ReferenceError: browser is not defined")
       else ([], Except.ok ()))

/-- Embeds enterEmail (src/index.js:124-134): click the email field, type the
email, delay, run the duplicate-email check, then wait for an enabled visible
Continue button (default timeout, `visible: true`), query all Continue
buttons (line 132 omits the `[not(@disabled)]` filter) and click the first
visible one. -/
def enterEmail (pg : Page) (email : String) : StepRun :=
  withEvents [Event.invoke "enterEmail"]
    (seqStep (clickOnEmailField pg)
      (withEvents [Event.typeText email, Event.delay]
        (seqStep (checkEmailExistOrInvalid pg)
          (withEvents
            [Event.waitXPath selContinueEnabled false true,
             Event.queryXPath selContinueAny]
            (clickVisibleContinue (pg.xpath selContinueAny))))))

/-- Embeds enterPassword (src/index.js:144-156): generate a password (pure,
using the default length and alphabet), delay, wait (no timeout, visible) for
the password label, type the password, wait for an enabled Continue button
(default timeout), delay, query and click the first visible one. -/
def enterPassword (pg : Page) (rand : Nat → Nat) : StepRun :=
  withEvents
    [Event.invoke "enterPassword",
     Event.delay,
     Event.waitXPath selPasswordLabel true true,
     Event.typeText (String.mk (passwordChars 20 defaultPasswordChars rand)),
     Event.waitXPath selContinueEnabled false false,
     Event.delay,
     Event.queryXPath selContinueEnabled]
    (clickVisibleContinue (pg.xpath selContinueEnabled))

/-- Embeds enterUsername (src/index.js:167-178): delay, wait (no timeout,
visible) for the username label, type the username, wait for an enabled
Continue button (default timeout), delay, query and click the first visible
one. -/
def enterUsername (pg : Page) (username : String) : StepRun :=
  withEvents
    [Event.invoke "enterUsername",
     Event.delay,
     Event.waitXPath selUsernameLabel true true,
     Event.typeText username,
     Event.waitXPath selContinueEnabled false false,
     Event.delay,
     Event.queryXPath selContinueEnabled]
    (clickVisibleContinue (pg.xpath selContinueEnabled))

/-- Embeds enterRejectAnnouncements (src/index.js:188-199): delay, wait (no
timeout, visible) for the product-updates label, type "n", wait for an
enabled Continue button (default timeout), delay, query and click the first
visible one. -/
def enterRejectAnnouncements (pg : Page) : StepRun :=
  withEvents
    [Event.invoke "enterRejectAnnouncements",
     Event.delay,
     Event.waitXPath selAnnouncementsLabel true true,
     Event.typeText "n",
     Event.waitXPath selContinueEnabled false false,
     Event.delay,
     Event.queryXPath selContinueEnabled]
    (clickVisibleContinue (pg.xpath selContinueEnabled))

/-- Embeds waitForUserSolvedCaptcha (src/index.js:208-216): delay, wait with
`timeout: 0` for the Create-account button to be visible, wait for it to be
enabled with the library default timeout (line 211 passes no options), delay,
query the enabled button, delay, and click the first visible one. -/
def waitForUserSolvedCaptcha (pg : Page) : StepRun :=
  withEvents
    [Event.invoke "waitForUserSolvedCaptcha",
     Event.delay,
     Event.waitXPath selCreateAccount true true,
     Event.waitXPath selCreateAccountEnabled false false,
     Event.delay,
     Event.queryXPath selCreateAccountEnabled,
     Event.delay]
    (clickVisibleContinue (pg.xpath selCreateAccountEnabled))

/-- Embeds chooseAccountConfigurations (src/index.js:227-243): wait for the
"Just me" and "N/A" labels (default timeout, no visibility option), click
each through `evaluate` (a missing handle would make the destructured
variable `undefined` and throw a TypeError), query enabled Continue buttons,
delay, click the first visible one, and wait for navigation (default
timeout). -/
def chooseAccountConfigurations (pg : Page) : StepRun :=
  withEvents
    [Event.invoke "chooseAccountConfigurations",
     Event.waitXPath selJustMe false false,
     Event.waitXPath selNA false false,
     Event.queryXPath selJustMe]
    (seqStep
      (requireHead (pg.xpath selJustMe) (fun h => [Event.clickEl h.id]))
      (withEvents [Event.queryXPath selNA]
        (seqStep
          (requireHead (pg.xpath selNA) (fun h => [Event.clickEl h.id]))
          (withEvents
            [Event.queryXPath selContinueEnabled, Event.delay]
            (seqStep (clickVisibleContinue (pg.xpath selContinueEnabled))
              ([Event.navWait false], Except.ok ()))))))

/-- Embeds continueRecommendedPlanPage (src/index.js:253-258): query enabled
Continue buttons, delay, click the first visible one, wait for navigation
(default timeout). -/
def continueRecommendedPlanPage (pg : Page) : StepRun :=
  withEvents
    [Event.invoke "continueRecommendedPlanPage",
     Event.queryXPath selContinueEnabled,
     Event.delay]
    (seqStep (clickVisibleContinue (pg.xpath selContinueEnabled))
      ([Event.navWait false], Except.ok ()))

/-- Embeds continueForFree (src/index.js:268-274): query the
"Continue for free" links, delay, click the first visible one, wait for
navigation with `timeout: 0`, delay. -/
def continueForFree (pg : Page) : StepRun :=
  withEvents
    [Event.invoke "continueForFree",
     Event.queryXPath selContinueForFree,
     Event.delay]
    (seqStep (clickVisibleContinue (pg.xpath selContinueForFree))
      ([Event.navWait true, Event.delay], Except.ok ()))

/-- Embeds setAccountConfiguration (src/index.js:282-286): the three
configuration sub-steps in strict sequence. -/
def setAccountConfiguration (pg : Page) : StepRun :=
  withEvents [Event.invoke "setAccountConfiguration"]
    (seqStep (chooseAccountConfigurations pg)
      (seqStep (continueRecommendedPlanPage pg)
        (continueForFree pg)))

/-- Embeds openAccountNavigationSidebar (src/index.js:297-313): query the
"Filter" summary, read its bounding box (TypeError when absent), click a
coordinate offset from it, delay. -/
def openAccountNavigationSidebar (pg : Page) : StepRun :=
  withEvents
    [Event.invoke "openAccountNavigationSidebar",
     Event.queryXPath selFilterSummary]
    (requireHead (pg.xpath selFilterSummary) (fun _ => [Event.mouseClick, Event.delay]))

/-- Embeds openSettingsPage (src/index.js:323-330): wait for the Settings
span (default timeout, visible), query and click it, wait for navigation
(default timeout). -/
def openSettingsPage (pg : Page) : StepRun :=
  withEvents
    [Event.invoke "openSettingsPage",
     Event.waitXPath selSettingsSpan false true,
     Event.queryXPath selSettingsSpan]
    (requireHead (pg.xpath selSettingsSpan)
      (fun h => [Event.clickEl h.id, Event.navWait false]))

/-- Embeds showUploadButton (src/index.js:339-346): wait for the Edit summary
(default timeout, visible), query and click it, delay. -/
def showUploadButton (pg : Page) : StepRun :=
  withEvents
    [Event.invoke "showUploadButton",
     Event.waitXPath selEditSummary false true,
     Event.queryXPath selEditSummary]
    (requireHead (pg.xpath selEditSummary)
      (fun h => [Event.clickEl h.id, Event.delay]))

/-- Embeds clickUploadPhoto (src/index.js:354-360): wait for the
"Upload a photo…" label (default timeout, visible), query and click it. -/
def clickUploadPhoto (pg : Page) : StepRun :=
  withEvents
    [Event.invoke "clickUploadPhoto",
     Event.waitXPath selUploadPhoto false true,
     Event.queryXPath selUploadPhoto]
    (requireHead (pg.xpath selUploadPhoto) (fun h => [Event.clickEl h.id]))

/-- Embeds submitAvatar (src/index.js:368-374): wait for the
"Set new profile picture" button (default timeout, visible), query and click
it. -/
def submitAvatar (pg : Page) : StepRun :=
  withEvents
    [Event.invoke "submitAvatar",
     Event.waitXPath selSetNewPicture false true,
     Event.queryXPath selSetNewPicture]
    (requireHead (pg.xpath selSetNewPicture) (fun h => [Event.clickEl h.id]))

/-- Embeds uploadAcatar (src/index.js:384-393).  The
`Promise.all([page.waitForFileChooser(), clickUploadPhoto(page)])` here needs
no interleaving relation: `Promise.all` evaluates its array in order, and
`waitForFileChooser()` registers its wait synchronously and performs no
further action until the click opens the chooser, so the only possible order
is the registration followed by clickUploadPhoto's actions.  Then: delay,
accept the fixed file, delay, submit. -/
def uploadAcatar (pg : Page) : StepRun :=
  withEvents [Event.invoke "uploadAcatar", Event.fileChooserWait]
    (seqStep (clickUploadPhoto pg)
      (withEvents
        [Event.delay, Event.fileAccept "./avatars/cat.png", Event.delay]
        (submitAvatar pg)))

/-- Embeds changeUserAvatar (src/index.js:401-406): the four avatar sub-steps
in strict sequence. -/
def changeUserAvatar (pg : Page) : StepRun :=
  withEvents [Event.invoke "changeUserAvatar"]
    (seqStep (openAccountNavigationSidebar pg)
      (seqStep (openSettingsPage pg)
        (seqStep (showUploadButton pg)
          (uploadAcatar pg))))

/- ### Orchestrator: createGithubAccount and the batch driver -/

/-- Interleaving (shuffle) of two traces: the possible orders in which two
cooperatively-scheduled tasks' actions can appear in the combined history. -/
inductive Shuffle : List Event → List Event → List Event → Prop where
  | nil : Shuffle [] [] []
  | consLeft {x xs ys zs} : Shuffle xs ys zs → Shuffle (x :: xs) ys (x :: zs)
  | consRight {y xs ys zs} : Shuffle xs ys zs → Shuffle xs (y :: ys) (y :: zs)

/-- Interleaving of the five concurrently-launched field-step traces of the
`Promise.all` at src/index.js:428-434. -/
def Interleave5 (t1 t2 t3 t4 t5 t : List Event) : Prop :=
  ∃ u v w, Shuffle t1 t2 u ∧ Shuffle u t3 v ∧ Shuffle v t4 w ∧ Shuffle w t5 t

/-- Possible behaviours of `Promise.all([q1, ..., q5])`
(src/index.js:428-434) given the behaviours of the five tasks: either every
task completes normally and the combined trace interleaves the five full
traces, or some task throws — the combined promise rejects with that value,
the failing task contributes its full trace, and each other task contributes
a prefix of its trace (how far it got before the rejection was observed;
JavaScript does not cancel the remaining tasks, so any prefix up to the full
trace is possible). -/
def FieldsBeh (q1 q2 q3 q4 q5 : StepRun) (t : List Event) (r : Except String Unit) : Prop :=
  (q1.2 = Except.ok () ∧ q2.2 = Except.ok () ∧ q3.2 = Except.ok () ∧
   q4.2 = Except.ok () ∧ q5.2 = Except.ok () ∧ r = Except.ok () ∧
   Interleave5 q1.1 q2.1 q3.1 q4.1 q5.1 t) ∨
  (∃ e p1 p2 p3 p4 p5, r = Except.error e ∧ Interleave5 p1 p2 p3 p4 p5 t ∧
    ((p1 = q1.1 ∧ q1.2 = Except.error e ∧ p2 <+: q2.1 ∧ p3 <+: q3.1 ∧ p4 <+: q4.1 ∧ p5 <+: q5.1) ∨
     (p1 <+: q1.1 ∧ p2 = q2.1 ∧ q2.2 = Except.error e ∧ p3 <+: q3.1 ∧ p4 <+: q4.1 ∧ p5 <+: q5.1) ∨
     (p1 <+: q1.1 ∧ p2 <+: q2.1 ∧ p3 = q3.1 ∧ q3.2 = Except.error e ∧ p4 <+: q4.1 ∧ p5 <+: q5.1) ∨
     (p1 <+: q1.1 ∧ p2 <+: q2.1 ∧ p3 <+: q3.1 ∧ p4 = q4.1 ∧ q4.2 = Except.error e ∧ p5 <+: q5.1) ∨
     (p1 <+: q1.1 ∧ p2 <+: q2.1 ∧ p3 <+: q3.1 ∧ p4 <+: q4.1 ∧ p5 = q5.1 ∧ q5.2 = Except.error e)))

/-- Actions of createGithubAccount before the `Promise.all`
(src/index.js:422-424): log the email, start the browser (open it, create the
page, set the viewport), navigate to the signup URL. -/
def preTrace (email : String) : List Event :=
  [Event.consoleLog ("Account email: " ++ email),
   Event.browserOpen,
   Event.goto "https://github.com/signup"]

/-- Actions of createGithubAccount after the `Promise.all`
(src/index.js:436-438): account configuration, avatar change, and the only
browser-close of the whole flow. -/
def accountTail (pg : Page) : StepRun :=
  seqStep (setAccountConfiguration pg)
    (seqStep (changeUserAvatar pg)
      ([Event.browserClose], Except.ok ()))

/-- Possible behaviours of createGithubAccount (src/index.js:421-443) for one
email: the preamble, then some behaviour of the five-way `Promise.all` on the
derived username / announcements / password / captcha / email steps; if that
rejects, the whole call rejects there (the close at line 438 is never
reached); otherwise the tail runs, and the call's trace and result are the
preamble, the interleaved middle, and the tail's. -/
def RunBeh (pg : Page) (rand : Nat → Nat) (email : String)
    (t : List Event) (r : Except String Unit) : Prop :=
  ∃ mid rm,
    FieldsBeh (enterUsername pg (deriveUsername email)) (enterRejectAnnouncements pg)
      (enterPassword pg rand) (waitForUserSolvedCaptcha pg) (enterEmail pg email) mid rm ∧
    ((rm = Except.ok () ∧ t = preTrace email ++ mid ++ (accountTail pg).1 ∧
      r = (accountTail pg).2) ∨
     (∃ e, rm = Except.error e ∧ t = preTrace email ++ mid ∧ r = Except.error e))

/-- Possible behaviours of the batch driver's inner loop
(src/index.js:454-463) over a list of already-trimmed non-empty emails: each
email's createGithubAccount call runs to completion — its full trace is laid
down — before the next email starts; the per-email result is caught (recorded
in `rs`), never propagated.  `env` gives the page oracle each email's signup
session encounters. -/
inductive BatchBeh (env : String → Page) (rand : Nat → Nat) :
    List String → List Event → List (Except String Unit) → Prop where
  | nil : BatchBeh env rand [] [] []
  | cons {e es te ts re rs} :
      RunBeh (env e) rand e te re →
      BatchBeh env rand es ts rs →
      BatchBeh env rand (e :: es) (te ++ ts) (re :: rs)

/- ### Batch driver: worklist parsing and per-email error isolation -/

/-- Splits a character list at every occurrence of the separator, the
semantics of JavaScript `String.prototype.split` with a one-character
separator (`"a,,b".split(',')` is `["a","","b"]`, `"".split(',')` is
`[""]`, and a trailing separator yields a trailing empty segment). -/
def splitChars (sep : Char) : List Char → List (List Char)
  | [] => [[]]
  | c :: cs =>
    match splitChars sep cs with
    | [] => [[]]
    | g :: gs => if c = sep then [] :: g :: gs else (c :: g) :: gs

/-- Whitespace removed by JavaScript `String.prototype.trim`, restricted to
the ASCII whitespace characters (the full JS set also contains Unicode
space separators, which cannot occur in the email worklists this script
reads). -/
def isJsWhitespace (c : Char) : Bool :=
  c = ' ' || c = '\t' || c = '\n' || c = '\r'

/-- Embeds `item.trim()` (src/index.js:453): strip leading and trailing
whitespace. -/
def jsTrim (s : String) : String :=
  String.mk (((s.data.dropWhile isJsWhitespace).reverse.dropWhile
    isJsWhitespace).reverse)

/-- Embeds `line.split(',')` (src/index.js:453). -/
def jsSplitComma (s : String) : List String :=
  (splitChars ',' s.data).map String.mk

/-- Embeds the worklist extraction of src/index.js:452-456: each line is
split at commas, entries are trimmed, and empty entries are skipped
(`if (!email) continue`). -/
def worklist (lines : List String) : List String :=
  (lines.flatMap (fun l => (jsSplitComma l).map jsTrim)).filter (fun e => e ≠ "")

/-- Observable actions of the batch driver itself: attempting one email
(entering the `try` block) and logging a caught error
(src/index.js:458-462). -/
inductive DriverEvent where
  | attempt (email : String)
  | caughtLog (err : String)
deriving DecidableEq, Repr

/-- Embeds the driver's per-email loop body (src/index.js:454-463) over the
flattened trimmed entries, with the outcome of each createGithubAccount call
abstracted as the oracle `run`: skip empty entries; otherwise attempt the
email and, if the call rejects, log the error and continue with the next
entry. -/
def processEmails (run : String → Except String Unit) : List String → List DriverEvent
  | [] => []
  | e :: es =>
    if e = "" then processEmails run es
    else
      match run e with
      | Except.ok _ => DriverEvent.attempt e :: processEmails run es
      | Except.error err =>
          DriverEvent.attempt e :: DriverEvent.caughtLog err :: processEmails run es

/-- Embeds the whole batch driver IIFE (src/index.js:448-465): read the
lines, split and trim each, and run the per-email loop. -/
def runDriver (run : String → Except String Unit) (lines : List String) : List DriverEvent :=
  processEmails run (lines.flatMap (fun l => (jsSplitComma l).map jsTrim))

/-- Emails the driver actually attempted, in order. -/
def attemptsOf (t : List DriverEvent) : List String :=
  t.filterMap (fun e => match e with | DriverEvent.attempt s => some s | _ => none)

/- ### Concrete pages, schedules and traces used as test vectors -/

/-- The seven steps the orchestrator sequences: the five concurrently
launched field steps, the account configuration, and the avatar change. -/
def stepNames : List String :=
  ["enterUsername", "enterRejectAnnouncements", "enterPassword",
   "waitForUserSolvedCaptcha", "enterEmail", "setAccountConfiguration",
   "changeUserAvatar"]

/-- Every source function entered during a fully successful run, in trace
order (the five field steps with enterEmail's two helpers, then the
configuration steps, then the avatar steps). -/
def allStepNames : List String :=
  ["enterUsername", "enterRejectAnnouncements", "enterPassword",
   "waitForUserSolvedCaptcha", "enterEmail", "clickOnEmailField",
   "checkEmailExistOrInvalid", "setAccountConfiguration",
   "chooseAccountConfigurations", "continueRecommendedPlanPage",
   "continueForFree", "changeUserAvatar", "openAccountNavigationSidebar",
   "openSettingsPage", "showUploadButton", "uploadAcatar", "clickUploadPhoto",
   "submitAvatar"]

/-- Test for a `page.waitForXPath` action. -/
def isXPathWait : Event → Bool
  | Event.waitXPath _ _ _ => true
  | _ => false

/-- Whether every `page.waitForXPath` action in a trace was configured with
`timeout: 0` (no timeout). -/
def unboundedXPathWaits (t : List Event) : Bool :=
  t.all (fun e => match e with | Event.waitXPath _ tz _ => tz | _ => true)

/-- A page on which every selector finds one visible element whose `hidden`
attribute is set (so the duplicate-email error paragraph counts as hidden):
the happy signup path. -/
def goodPage : Page := ⟨fun _ => [⟨0, false, false⟩]⟩

/-- A page like `goodPage` except that elements carry a null `hidden`
attribute, so the duplicate-email error paragraph counts as shown: the
email-already-taken path. -/
def badPage : Page := ⟨fun _ => [⟨0, false, true⟩]⟩

/-- Page environment for the two-email batch test vector: the first email
hits the duplicate-email page, the second a clean signup. -/
def env2 : String → Page := fun e => if e = "bad@x.com" then badPage else goodPage

/-- A fixed randomness stream for the test vectors. -/
def rand0 : Nat → Nat := fun _ => 0

/-- Outcome oracle for the driver test vector: the first email's account
creation rejects, the others succeed. -/
def runOracle1 : String → Except String Unit :=
  fun e => if e = "a@x.com" then Except.error "boom" else Except.ok ()

/-- The concatenation schedule of the five field-step traces on `goodPage`
(one admissible interleaving: each task runs to completion in launch
order). -/
def goodMid : List Event :=
  (enterUsername goodPage (deriveUsername "good@y.com")).1 ++
    ((enterRejectAnnouncements goodPage).1 ++
      ((enterPassword goodPage rand0).1 ++
        ((waitForUserSolvedCaptcha goodPage).1 ++
          (enterEmail goodPage "good@y.com").1)))

/-- Trace of a fully successful run for `good@y.com` on `goodPage` under the
concatenation schedule. -/
def goodRunTrace : List Event :=
  preTrace "good@y.com" ++ goodMid ++ (accountTail goodPage).1

/-- The concatenation schedule of the five field-step traces on `badPage`:
the first four run to completion, then enterEmail runs and throws at the
duplicate-email check. -/
def badMid : List Event :=
  (enterUsername badPage (deriveUsername "bad@x.com")).1 ++
    ((enterRejectAnnouncements badPage).1 ++
      ((enterPassword badPage rand0).1 ++
        ((waitForUserSolvedCaptcha badPage).1 ++
          (enterEmail badPage "bad@x.com").1)))

/-- Trace of the failed run for `bad@x.com` on `badPage`: the rejection of
the five-way `Promise.all` aborts the run before the configuration steps and
before any browser close. -/
def badRunTrace : List Event := preTrace "bad@x.com" ++ badMid

/- ### Helper lemmas -/

theorem shuffle_append (xs ys : List Event) : Shuffle xs ys (xs ++ ys) := by
  induction xs with
  | nil =>
    induction ys with
    | nil => exact Shuffle.nil
    | cons y ys ih => exact Shuffle.consRight ih
  | cons x xs ih => exact Shuffle.consLeft ih

theorem Shuffle.count_eq {xs ys zs : List Event} (h : Shuffle xs ys zs) (a : Event) :
    zs.count a = xs.count a + ys.count a := by
  induction h with
  | nil => simp
  | consLeft _ ih => simp [List.count_cons, ih]; omega
  | consRight _ ih => simp [List.count_cons, ih]; omega

theorem interleave5_concat (t1 t2 t3 t4 t5 : List Event) :
    Interleave5 t1 t2 t3 t4 t5 (t1 ++ (t2 ++ (t3 ++ (t4 ++ t5)))) := by
  refine ⟨t1 ++ t2, (t1 ++ t2) ++ t3, ((t1 ++ t2) ++ t3) ++ t4,
    shuffle_append t1 t2, shuffle_append _ t3, shuffle_append _ t4, ?_⟩
  have h := shuffle_append (((t1 ++ t2) ++ t3) ++ t4) t5
  simpa [List.append_assoc] using h

theorem interleave5_count {t1 t2 t3 t4 t5 t : List Event}
    (h : Interleave5 t1 t2 t3 t4 t5 t) (a : Event) :
    t.count a = t1.count a + t2.count a + t3.count a + t4.count a + t5.count a := by
  obtain ⟨u, v, w, h1, h2, h3, h4⟩ := h
  rw [h4.count_eq, h3.count_eq, h2.count_eq, h1.count_eq]

theorem seqStep_ok {a b : StepRun} (h : (seqStep a b).2 = Except.ok ()) :
    a.2 = Except.ok () ∧ b.2 = Except.ok () := by
  unfold seqStep at h
  split at h
  · exact absurd h (by simp)
  · exact ⟨by assumption, h⟩

theorem seqStep_fst_ok {a : StepRun} (b : StepRun) (h : a.2 = Except.ok ()) :
    (seqStep a b).1 = a.1 ++ b.1 := by
  unfold seqStep
  split
  · simp_all
  · rfl

theorem withEvents_fst (evs : List Event) (b : StepRun) :
    (withEvents evs b).1 = evs ++ b.1 := rfl

theorem withEvents_snd (evs : List Event) (b : StepRun) :
    (withEvents evs b).2 = b.2 := rfl

theorem clickVisibleContinue_snd (bs : List ElemHandle) :
    (clickVisibleContinue bs).2 = Except.ok () := by
  induction bs with
  | nil => rfl
  | cons b bs ih =>
    by_cases h : b.visibilityHidden <;> simp [clickVisibleContinue, h, ih]

theorem clickVisibleContinue_fst (bs : List ElemHandle) :
    (clickVisibleContinue bs).1 =
      (match bs.find? (fun b => !b.visibilityHidden) with
       | some b => [Event.clickEl b.id]
       | none => []) := by
  induction bs with
  | nil => rfl
  | cons b bs ih =>
    by_cases h : b.visibilityHidden <;>
      simp [clickVisibleContinue, List.find?_cons, h, ih]

theorem clickVisibleContinue_count_invoke (bs : List ElemHandle) (f : String) :
    (clickVisibleContinue bs).1.count (Event.invoke f) = 0 := by
  rw [clickVisibleContinue_fst]
  cases bs.find? (fun b => !b.visibilityHidden) <;> simp

theorem clickVisibleContinue_count_open (bs : List ElemHandle) :
    (clickVisibleContinue bs).1.count Event.browserOpen = 0 := by
  rw [clickVisibleContinue_fst]
  cases bs.find? (fun b => !b.visibilityHidden) <;> simp

theorem clickVisibleContinue_count_close (bs : List ElemHandle) :
    (clickVisibleContinue bs).1.count Event.browserClose = 0 := by
  rw [clickVisibleContinue_fst]
  cases bs.find? (fun b => !b.visibilityHidden) <;> simp

theorem prefix_append_cases {α : Type} {p t1 t2 : List α} (h : p <+: t1 ++ t2) :
    p <+: t1 ∨ ∃ q, q <+: t2 ∧ p = t1 ++ q := by
  induction t1 generalizing p with
  | nil => exact Or.inr ⟨p, by simpa using h, by simp⟩
  | cons a t1 ih =>
    cases p with
    | nil => exact Or.inl List.nil_prefix
    | cons b p' =>
      rw [List.cons_append, List.cons_prefix_cons] at h
      obtain ⟨rfl, h'⟩ := h
      rcases ih h' with h1 | ⟨q, hq, rfl⟩
      · exact Or.inl (by simpa [List.cons_prefix_cons] using h1)
      · exact Or.inr ⟨q, hq, by simp⟩

theorem requireHead_ok {hs : List ElemHandle} {k : ElemHandle → List Event}
    (h : (requireHead hs k).2 = Except.ok ()) :
    ∃ x, hs.head? = some x ∧ (requireHead hs k).1 = k x := by
  unfold requireHead at h ⊢
  cases hx : hs.head? with
  | none => rw [hx] at h; exact absurd h (by simp)
  | some x => exact ⟨x, rfl, rfl⟩

/-- Events whose occurrences we count in traces: function-entry markers and
the two browser-session lifecycle events. -/
def sessionOrInvoke (e : Event) : Prop :=
  (∃ f, e = Event.invoke f) ∨ e = Event.browserOpen ∨ e = Event.browserClose

theorem count_clickVisibleContinue {e : Event} (bs : List ElemHandle)
    (he : sessionOrInvoke e) : (clickVisibleContinue bs).1.count e = 0 := by
  rcases he with ⟨f, rfl⟩ | rfl | rfl
  · exact clickVisibleContinue_count_invoke bs f
  · exact clickVisibleContinue_count_open bs
  · exact clickVisibleContinue_count_close bs

theorem count_enterUsername (pg : Page) (u : String) {e : Event}
    (he : sessionOrInvoke e) :
    (enterUsername pg u).1.count e = (["enterUsername"].map Event.invoke).count e := by
  have hc := count_clickVisibleContinue (pg.xpath selContinueEnabled) he
  rcases he with ⟨f, rfl⟩ | rfl | rfl <;>
    simp [enterUsername, withEvents, List.count_append, List.count_cons, hc,
      Event.invoke.injEq]

theorem count_enterRejectAnnouncements (pg : Page) {e : Event}
    (he : sessionOrInvoke e) :
    (enterRejectAnnouncements pg).1.count e =
      (["enterRejectAnnouncements"].map Event.invoke).count e := by
  have hc := count_clickVisibleContinue (pg.xpath selContinueEnabled) he
  rcases he with ⟨f, rfl⟩ | rfl | rfl <;>
    simp [enterRejectAnnouncements, withEvents, List.count_append, List.count_cons, hc,
      Event.invoke.injEq]

theorem count_enterPassword (pg : Page) (rand : Nat → Nat) {e : Event}
    (he : sessionOrInvoke e) :
    (enterPassword pg rand).1.count e = (["enterPassword"].map Event.invoke).count e := by
  have hc := count_clickVisibleContinue (pg.xpath selContinueEnabled) he
  rcases he with ⟨f, rfl⟩ | rfl | rfl <;>
    simp [enterPassword, withEvents, List.count_append, List.count_cons, hc,
      Event.invoke.injEq]

theorem count_waitForUserSolvedCaptcha (pg : Page) {e : Event}
    (he : sessionOrInvoke e) :
    (waitForUserSolvedCaptcha pg).1.count e =
      (["waitForUserSolvedCaptcha"].map Event.invoke).count e := by
  have hc := count_clickVisibleContinue (pg.xpath selCreateAccountEnabled) he
  rcases he with ⟨f, rfl⟩ | rfl | rfl <;>
    simp [waitForUserSolvedCaptcha, withEvents, List.count_append, List.count_cons, hc,
      Event.invoke.injEq]

theorem count_clickOnEmailField (pg : Page) {e : Event} (he : sessionOrInvoke e)
    (h : (clickOnEmailField pg).2 = Except.ok ()) :
    (clickOnEmailField pg).1.count e = (["clickOnEmailField"].map Event.invoke).count e := by
  unfold clickOnEmailField at h ⊢
  rw [withEvents_snd] at h
  obtain ⟨x, -, htr⟩ := requireHead_ok h
  rw [withEvents_fst, htr]
  rcases he with ⟨f, rfl⟩ | rfl | rfl <;>
    simp [List.count_append, List.count_cons, Event.invoke.injEq]

theorem fst_checkEmailExistOrInvalid (pg : Page) :
    (checkEmailExistOrInvalid pg).1 =
      [Event.invoke "checkEmailExistOrInvalid", Event.queryXPath selEmailError,
       Event.delay] := by
  unfold checkEmailExistOrInvalid withEvents
  rcases (pg.xpath selEmailError).head? with _ | p
  · rfl
  · by_cases hp : p.hiddenAttrNull <;> simp [hp]

theorem count_checkEmailExistOrInvalid (pg : Page) {e : Event} (he : sessionOrInvoke e) :
    (checkEmailExistOrInvalid pg).1.count e =
      (["checkEmailExistOrInvalid"].map Event.invoke).count e := by
  rw [fst_checkEmailExistOrInvalid]
  rcases he with ⟨f, rfl⟩ | rfl | rfl <;>
    simp [List.count_cons, Event.invoke.injEq]

theorem count_enterEmail (pg : Page) (email : String) {e : Event} (he : sessionOrInvoke e)
    (h : (enterEmail pg email).2 = Except.ok ()) :
    (enterEmail pg email).1.count e =
      ((["enterEmail", "clickOnEmailField", "checkEmailExistOrInvalid"]).map
        Event.invoke).count e := by
  unfold enterEmail at h ⊢
  rw [withEvents_snd] at h
  obtain ⟨h1, h2⟩ := seqStep_ok h
  rw [withEvents_snd] at h2
  obtain ⟨h3, -⟩ := seqStep_ok h2
  rw [withEvents_fst, seqStep_fst_ok _ h1, withEvents_fst, seqStep_fst_ok _ h3,
    withEvents_fst]
  have hcl := count_clickOnEmailField pg he h1
  have hck := count_checkEmailExistOrInvalid pg he
  have hcv := count_clickVisibleContinue (pg.xpath selContinueAny) he
  rcases he with ⟨f, rfl⟩ | rfl | rfl <;>
    simp only [hcl, hck, hcv, List.count_append, List.map_cons, List.map_nil,
      List.count_cons, List.count_nil, Event.invoke.injEq] <;>
    simp <;> omega

theorem count_chooseAccountConfigurations (pg : Page) {e : Event}
    (he : sessionOrInvoke e) (h : (chooseAccountConfigurations pg).2 = Except.ok ()) :
    (chooseAccountConfigurations pg).1.count e =
      (["chooseAccountConfigurations"].map Event.invoke).count e := by
  unfold chooseAccountConfigurations at h ⊢
  rw [withEvents_snd] at h
  obtain ⟨h1, h2⟩ := seqStep_ok h
  rw [withEvents_snd] at h2
  obtain ⟨h3, h4⟩ := seqStep_ok h2
  rw [withEvents_snd] at h4
  obtain ⟨x1, -, ht1⟩ := requireHead_ok h1
  obtain ⟨x2, -, ht2⟩ := requireHead_ok h3
  obtain ⟨h5, -⟩ := seqStep_ok h4
  rw [withEvents_fst, seqStep_fst_ok _ h1, withEvents_fst, seqStep_fst_ok _ h3,
    withEvents_fst, seqStep_fst_ok _ h5, ht1, ht2]
  have hcv := count_clickVisibleContinue (pg.xpath selContinueEnabled) he
  rcases he with ⟨f, rfl⟩ | rfl | rfl <;>
    simp only [hcv, List.count_append, List.map_cons, List.map_nil,
      List.count_cons, List.count_nil, Event.invoke.injEq] <;>
    simp

theorem count_continueRecommendedPlanPage (pg : Page) {e : Event}
    (he : sessionOrInvoke e) :
    (continueRecommendedPlanPage pg).1.count e =
      (["continueRecommendedPlanPage"].map Event.invoke).count e := by
  unfold continueRecommendedPlanPage
  rw [withEvents_fst, seqStep_fst_ok _ (clickVisibleContinue_snd _)]
  have hcv := count_clickVisibleContinue (pg.xpath selContinueEnabled) he
  rcases he with ⟨f, rfl⟩ | rfl | rfl <;>
    simp only [hcv, List.count_append, List.map_cons, List.map_nil,
      List.count_cons, List.count_nil, Event.invoke.injEq] <;>
    simp

theorem count_continueForFree (pg : Page) {e : Event} (he : sessionOrInvoke e) :
    (continueForFree pg).1.count e = (["continueForFree"].map Event.invoke).count e := by
  unfold continueForFree
  rw [withEvents_fst, seqStep_fst_ok _ (clickVisibleContinue_snd _)]
  have hcv := count_clickVisibleContinue (pg.xpath selContinueForFree) he
  rcases he with ⟨f, rfl⟩ | rfl | rfl <;>
    simp only [hcv, List.count_append, List.map_cons, List.map_nil,
      List.count_cons, List.count_nil, Event.invoke.injEq] <;>
    simp

theorem count_setAccountConfiguration (pg : Page) {e : Event}
    (he : sessionOrInvoke e) (h : (setAccountConfiguration pg).2 = Except.ok ()) :
    (setAccountConfiguration pg).1.count e =
      ((["setAccountConfiguration", "chooseAccountConfigurations",
         "continueRecommendedPlanPage", "continueForFree"]).map Event.invoke).count e := by
  unfold setAccountConfiguration at h ⊢
  rw [withEvents_snd] at h
  obtain ⟨h1, h2⟩ := seqStep_ok h
  obtain ⟨h3, -⟩ := seqStep_ok h2
  rw [withEvents_fst, seqStep_fst_ok _ h1, seqStep_fst_ok _ h3]
  have hc1 := count_chooseAccountConfigurations pg he h1
  have hc2 := count_continueRecommendedPlanPage pg he
  have hc3 := count_continueForFree pg he
  rcases he with ⟨f, rfl⟩ | rfl | rfl <;>
    simp only [hc1, hc2, hc3, List.count_append, List.map_cons, List.map_nil,
      List.count_cons, List.count_nil, Event.invoke.injEq] <;>
    simp <;> omega

theorem count_openAccountNavigationSidebar (pg : Page) {e : Event}
    (he : sessionOrInvoke e) (h : (openAccountNavigationSidebar pg).2 = Except.ok ()) :
    (openAccountNavigationSidebar pg).1.count e =
      (["openAccountNavigationSidebar"].map Event.invoke).count e := by
  unfold openAccountNavigationSidebar at h ⊢
  rw [withEvents_snd] at h
  obtain ⟨x, -, htr⟩ := requireHead_ok h
  rw [withEvents_fst, htr]
  rcases he with ⟨f, rfl⟩ | rfl | rfl <;>
    simp [List.count_append, List.count_cons, Event.invoke.injEq]

theorem count_openSettingsPage (pg : Page) {e : Event}
    (he : sessionOrInvoke e) (h : (openSettingsPage pg).2 = Except.ok ()) :
    (openSettingsPage pg).1.count e = (["openSettingsPage"].map Event.invoke).count e := by
  unfold openSettingsPage at h ⊢
  rw [withEvents_snd] at h
  obtain ⟨x, -, htr⟩ := requireHead_ok h
  rw [withEvents_fst, htr]
  rcases he with ⟨f, rfl⟩ | rfl | rfl <;>
    simp [List.count_append, List.count_cons, Event.invoke.injEq]

theorem count_showUploadButton (pg : Page) {e : Event}
    (he : sessionOrInvoke e) (h : (showUploadButton pg).2 = Except.ok ()) :
    (showUploadButton pg).1.count e = (["showUploadButton"].map Event.invoke).count e := by
  unfold showUploadButton at h ⊢
  rw [withEvents_snd] at h
  obtain ⟨x, -, htr⟩ := requireHead_ok h
  rw [withEvents_fst, htr]
  rcases he with ⟨f, rfl⟩ | rfl | rfl <;>
    simp [List.count_append, List.count_cons, Event.invoke.injEq]

theorem count_clickUploadPhoto (pg : Page) {e : Event}
    (he : sessionOrInvoke e) (h : (clickUploadPhoto pg).2 = Except.ok ()) :
    (clickUploadPhoto pg).1.count e = (["clickUploadPhoto"].map Event.invoke).count e := by
  unfold clickUploadPhoto at h ⊢
  rw [withEvents_snd] at h
  obtain ⟨x, -, htr⟩ := requireHead_ok h
  rw [withEvents_fst, htr]
  rcases he with ⟨f, rfl⟩ | rfl | rfl <;>
    simp [List.count_append, List.count_cons, Event.invoke.injEq]

theorem count_submitAvatar (pg : Page) {e : Event}
    (he : sessionOrInvoke e) (h : (submitAvatar pg).2 = Except.ok ()) :
    (submitAvatar pg).1.count e = (["submitAvatar"].map Event.invoke).count e := by
  unfold submitAvatar at h ⊢
  rw [withEvents_snd] at h
  obtain ⟨x, -, htr⟩ := requireHead_ok h
  rw [withEvents_fst, htr]
  rcases he with ⟨f, rfl⟩ | rfl | rfl <;>
    simp [List.count_append, List.count_cons, Event.invoke.injEq]

theorem count_uploadAcatar (pg : Page) {e : Event}
    (he : sessionOrInvoke e) (h : (uploadAcatar pg).2 = Except.ok ()) :
    (uploadAcatar pg).1.count e =
      ((["uploadAcatar", "clickUploadPhoto", "submitAvatar"]).map Event.invoke).count e := by
  unfold uploadAcatar at h ⊢
  rw [withEvents_snd] at h
  obtain ⟨h1, h2⟩ := seqStep_ok h
  rw [withEvents_snd] at h2
  rw [withEvents_fst, seqStep_fst_ok _ h1, withEvents_fst]
  have hc1 := count_clickUploadPhoto pg he h1
  have hc2 := count_submitAvatar pg he h2
  rcases he with ⟨f, rfl⟩ | rfl | rfl <;>
    simp only [hc1, hc2, List.count_append, List.map_cons, List.map_nil,
      List.count_cons, List.count_nil, Event.invoke.injEq] <;>
    simp <;> omega

theorem count_changeUserAvatar (pg : Page) {e : Event}
    (he : sessionOrInvoke e) (h : (changeUserAvatar pg).2 = Except.ok ()) :
    (changeUserAvatar pg).1.count e =
      ((["changeUserAvatar", "openAccountNavigationSidebar", "openSettingsPage",
         "showUploadButton", "uploadAcatar", "clickUploadPhoto",
         "submitAvatar"]).map Event.invoke).count e := by
  unfold changeUserAvatar at h ⊢
  rw [withEvents_snd] at h
  obtain ⟨h1, h2⟩ := seqStep_ok h
  obtain ⟨h3, h4⟩ := seqStep_ok h2
  obtain ⟨h5, h6⟩ := seqStep_ok h4
  rw [withEvents_fst, seqStep_fst_ok _ h1, seqStep_fst_ok _ h3, seqStep_fst_ok _ h5]
  have hc1 := count_openAccountNavigationSidebar pg he h1
  have hc2 := count_openSettingsPage pg he h3
  have hc3 := count_showUploadButton pg he h5
  have hc4 := count_uploadAcatar pg he h6
  rcases he with ⟨f, rfl⟩ | rfl | rfl <;>
    simp only [hc1, hc2, hc3, hc4, List.count_append, List.map_cons, List.map_nil,
      List.count_cons, List.count_nil, Event.invoke.injEq] <;>
    simp <;> omega

theorem runOk_count {pg : Page} {rand : Nat → Nat} {email : String} {t : List Event}
    (h : RunBeh pg rand email t (Except.ok ())) {e : Event} (he : sessionOrInvoke e) :
    t.count e = (preTrace email).count e + (allStepNames.map Event.invoke).count e +
      [Event.browserClose].count e := by
  obtain ⟨mid, rm, hf, hcase⟩ := h
  rcases hcase with ⟨hrm, ht, hr⟩ | ⟨er, hrm, ht, hr⟩
  · subst hrm
    rcases hf with ⟨hq1, hq2, hq3, hq4, hq5, -, hint⟩ |
      ⟨er, p1, p2, p3, p4, p5, hrm', -⟩
    · have htail : (accountTail pg).2 = Except.ok () := hr.symm
      unfold accountTail at htail
      obtain ⟨hcfg, h2⟩ := seqStep_ok htail
      obtain ⟨hav, -⟩ := seqStep_ok h2
      have htt : (accountTail pg).1 =
          (setAccountConfiguration pg).1 ++ ((changeUserAvatar pg).1 ++ [Event.browserClose]) := by
        unfold accountTail
        rw [seqStep_fst_ok _ hcfg, seqStep_fst_ok _ hav]
      have hm := interleave5_count hint e
      rw [ht, htt]
      simp only [List.count_append, hm,
        count_enterUsername pg (deriveUsername email) he,
        count_enterRejectAnnouncements pg he,
        count_enterPassword pg rand he,
        count_waitForUserSolvedCaptcha pg he,
        count_enterEmail pg email he hq5,
        count_setAccountConfiguration pg he hcfg,
        count_changeUserAvatar pg he hav, allStepNames,
        List.map_cons, List.map_nil, List.count_cons, List.count_nil]
      omega
    · exact absurd hrm' (by simp)
  · exact absurd hr (by simp)

theorem runOk_session_counts {pg : Page} {rand : Nat → Nat} {email : String}
    {t : List Event} (h : RunBeh pg rand email t (Except.ok ())) :
    t.count Event.browserOpen = 1 ∧ t.count Event.browserClose = 1 := by
  constructor
  · rw [runOk_count h (Or.inr (Or.inl rfl))]
    simp [preTrace, allStepNames, List.count_cons]
  · rw [runOk_count h (Or.inr (Or.inr rfl))]
    simp [preTrace, allStepNames, List.count_cons]

theorem runBeh_good :
    RunBeh goodPage rand0 "good@y.com" goodRunTrace (Except.ok ()) := by
  exact ⟨goodMid, Except.ok (), Or.inl ⟨rfl, rfl, rfl, rfl, rfl, rfl,
    interleave5_concat _ _ _ _ _⟩, Or.inl ⟨rfl, rfl, rfl⟩⟩

theorem runBeh_bad :
    RunBeh badPage rand0 "bad@x.com" badRunTrace
      (Except.error "ReferenceError: browser is not defined") := by
  exact ⟨badMid, Except.error "ReferenceError: browser is not defined",
    Or.inr ⟨"ReferenceError: browser is not defined", _, _, _, _, _, rfl,
      interleave5_concat _ _ _ _ _,
      Or.inr (Or.inr (Or.inr (Or.inr ⟨List.prefix_refl _, List.prefix_refl _,
        List.prefix_refl _, List.prefix_refl _, rfl, rfl⟩)))⟩,
    Or.inr ⟨"ReferenceError: browser is not defined", rfl, rfl, rfl⟩⟩

theorem mem_passwordChars {characters : String} (hc : characters ≠ "")
    (len : Nat) (rand : Nat → Nat) :
    ∀ c ∈ passwordChars len characters rand, c ∈ characters.data := by
  intro c hmem
  simp only [passwordChars, List.mem_map, List.mem_range] at hmem
  obtain ⟨i, -, rfl⟩ := hmem
  have hne : characters.data ≠ [] := by
    intro hnil
    apply hc
    cases characters
    simp_all
  have hpos : 0 < characters.length := List.length_pos.mpr hne
  have hlt : (rand i % 2 ^ 32) % characters.length < characters.data.length :=
    Nat.mod_lt (rand i % 2 ^ 32) hpos
  rw [List.getD_eq_getElem _ _ hlt]
  exact List.getElem_mem hlt

theorem isAsciiAlphanumeric_eq_isAlphanum (c : Char) :
    isAsciiAlphanumeric c = c.isAlphanum := by
  unfold isAsciiAlphanumeric Char.isAlphanum Char.isAlpha Char.isDigit
    Char.isUpper Char.isLower
  cases h1 : decide (97 ≤ c.val) <;> cases h2 : decide (c.val ≤ 122) <;>
    cases h3 : decide (65 ≤ c.val) <;> cases h4 : decide (c.val ≤ 90) <;>
    cases h5 : decide (48 ≤ c.val) <;> cases h6 : decide (c.val ≤ 57) <;>
    simp_all [ge_iff_le]

theorem attemptsOf_cons_attempt (s : String) (t : List DriverEvent) :
    attemptsOf (DriverEvent.attempt s :: t) = s :: attemptsOf t := rfl

theorem attemptsOf_cons_log (s : String) (t : List DriverEvent) :
    attemptsOf (DriverEvent.caughtLog s :: t) = attemptsOf t := rfl

theorem attempts_processEmails (run : String → Except String Unit) (es : List String) :
    attemptsOf (processEmails run es) = es.filter (fun e => e ≠ "") := by
  induction es with
  | nil => rfl
  | cons e es ih =>
    by_cases he : e = ""
    · simp only [processEmails]
      rw [if_pos he, ih, List.filter_cons]
      simp [he]
    · simp only [processEmails]
      rw [if_neg he]
      cases hr : run e with
      | ok u =>
        rw [attemptsOf_cons_attempt, ih, List.filter_cons]
        simp [he]
      | error err =>
        rw [attemptsOf_cons_attempt, attemptsOf_cons_log, ih, List.filter_cons]
        simp [he]

theorem caught_processEmails (run : String → Except String Unit) (es : List String)
    (email err : String) (hm : email ∈ es) (hne : email ≠ "")
    (hr : run email = Except.error err) :
    DriverEvent.caughtLog err ∈ processEmails run es := by
  induction es with
  | nil => cases hm
  | cons e es ih =>
    rcases List.mem_cons.mp hm with rfl | hm'
    · simp [processEmails, hne, hr]
    · by_cases he : e = ""
      · simpa [processEmails, he] using ih hm'
      · cases hre : run e <;> simp [processEmails, he, hre, ih hm']

/- ### Claims -/

/-- C1: the claim says that when the "Email is invalid or already taken"
paragraph is present and not hidden, the run fails fast with the
domain-specific "Email exist" error after closing the browser exactly once.
The code does abort before account configuration, but the failure branch
first evaluates the unbound identifier `browser` (src/index.js:108), so the
call rejects with a ReferenceError — the `throw "Email exist"` on the next
line is unreachable — and the browser is never closed: the failed run's
trace contains zero browserClose events. -/
theorem claim_C1 :
    (checkEmailExistOrInvalid badPage).2 =
      Except.error "ReferenceError: browser is not defined" ∧
    RunBeh badPage rand0 "bad@x.com" badRunTrace
      (Except.error "ReferenceError: browser is not defined") ∧
    (enterEmail badPage "bad@x.com").2 ≠ Except.error "Email exist" ∧
    badRunTrace.count Event.browserClose = 0 ∧
    Event.invoke "setAccountConfiguration" ∉ badRunTrace := by
  refine ⟨rfl, runBeh_bad, ?_, by decide, by decide⟩
  intro h
  rw [show (enterEmail badPage "bad@x.com").2 =
    Except.error "ReferenceError: browser is not defined" from rfl] at h
  injection h with h'
  exact absurd h' (by decide)

/-- C2 (amended): the batch driver runs the per-email flows strictly
sequentially, and as long as every run completes successfully, at most one
browser session is open at any point of the batch trace.  (The unamended
claim also asserted closure on failure; `claim_C2_counterexample` shows a
failed run leaves its browser open, so a later run makes two sessions.) -/
theorem claim_C2 {env : String → Page} {rand : Nat → Nat} {emails : List String}
    {t : List Event} {rs : List (Except String Unit)}
    (h : BatchBeh env rand emails t rs) (hok : ∀ r ∈ rs, r = Except.ok ()) :
    ∀ p, p <+: t → p.count Event.browserOpen ≤ p.count Event.browserClose + 1 := by
  revert hok
  induction h with
  | nil =>
    intro hok p hp
    rw [List.prefix_nil.mp hp]
    simp
  | cons hrun hb ih =>
    intro hok p hp
    rename_i e es te ts re rs0
    have hre : re = Except.ok () := hok re (List.mem_cons_self _ _)
    have hcounts := runOk_session_counts (hre ▸ hrun)
    rcases prefix_append_cases hp with hp1 | ⟨q, hq, rfl⟩
    · have h1 : p.count Event.browserOpen ≤ te.count Event.browserOpen :=
        List.Sublist.count_le hp1.sublist _
      omega
    · have ihq := ih (fun r hr => hok r (List.mem_cons_of_mem _ hr)) q hq
      simp only [List.count_append]
      omega

/-- C2 counterexample: in the two-email batch where the first email hits the
duplicate-email page, the first run rejects without closing its browser, so
right after the second run opens its browser the trace prefix contains two
browserOpen events and no browserClose — refuting "at most one browser
session is open at every point". -/
theorem claim_C2_counterexample :
    ∃ t rs, BatchBeh env2 rand0 (worklist ["bad@x.com,good@y.com"]) t rs ∧
      ∃ p, p <+: t ∧ ¬ p.count Event.browserOpen ≤ p.count Event.browserClose + 1 := by
  refine ⟨badRunTrace ++ (goodRunTrace ++ []),
    [Except.error "ReferenceError: browser is not defined", Except.ok ()], ?_, ?_⟩
  · rw [show worklist ["bad@x.com,good@y.com"] = ["bad@x.com", "good@y.com"] from by decide]
    exact BatchBeh.cons runBeh_bad (BatchBeh.cons runBeh_good BatchBeh.nil)
  · refine ⟨badRunTrace ++ preTrace "good@y.com",
      ⟨goodMid ++ (accountTail goodPage).1, ?_⟩, ?_⟩
    · simp [goodRunTrace, List.append_assoc]
    · decide

/-- C2 witness (for the amended theorem): a one-email all-success batch on
the clean page satisfies the at-most-one-open-session bound on every
prefix. -/
theorem claim_C2_witness :
    BatchBeh env2 rand0 ["good@y.com"] (goodRunTrace ++ []) [Except.ok ()] ∧
    ∀ p, p <+: goodRunTrace ++ [] →
      p.count Event.browserOpen ≤ p.count Event.browserClose + 1 := by
  have hb : BatchBeh env2 rand0 ["good@y.com"] (goodRunTrace ++ []) [Except.ok ()] :=
    BatchBeh.cons runBeh_good BatchBeh.nil
  exact ⟨hb, claim_C2 hb (by simp)⟩

/-- C3: every successful behaviour of createGithubAccount decomposes as the
preamble, an interleaving of the five complete field-step traces (their
joint completion precedes everything that follows), the full account
configuration, the full avatar change, and a final browser close; each of
the seven orchestrated steps is entered exactly once, the browser is closed
exactly once, and that close is the last action. -/
theorem claim_C3 {pg : Page} {rand : Nat → Nat} {email : String} {t : List Event}
    (h : RunBeh pg rand email t (Except.ok ())) :
    (∃ mid, Interleave5 (enterUsername pg (deriveUsername email)).1
        (enterRejectAnnouncements pg).1 (enterPassword pg rand).1
        (waitForUserSolvedCaptcha pg).1 (enterEmail pg email).1 mid ∧
      t = preTrace email ++ mid ++ (setAccountConfiguration pg).1 ++
          (changeUserAvatar pg).1 ++ [Event.browserClose]) ∧
    (∀ f ∈ stepNames, t.count (Event.invoke f) = 1) ∧
    t.count Event.browserClose = 1 ∧
    t.getLast? = some Event.browserClose := by
  have hcnt : ∀ e : Event, sessionOrInvoke e →
      t.count e = (preTrace email).count e +
        (allStepNames.map Event.invoke).count e + [Event.browserClose].count e :=
    fun e he => runOk_count h he
  obtain ⟨mid, rm, hf, hcase⟩ := h
  rcases hcase with ⟨hrm, ht, hr⟩ | ⟨er, hrm, ht, hr⟩
  · subst hrm
    rcases hf with ⟨hq1, hq2, hq3, hq4, hq5, -, hint⟩ |
      ⟨er, p1, p2, p3, p4, p5, hrm', -⟩
    · have htail : (accountTail pg).2 = Except.ok () := hr.symm
      unfold accountTail at htail
      obtain ⟨hcfg, h2⟩ := seqStep_ok htail
      obtain ⟨hav, -⟩ := seqStep_ok h2
      have htt : (accountTail pg).1 = (setAccountConfiguration pg).1 ++
          ((changeUserAvatar pg).1 ++ [Event.browserClose]) := by
        unfold accountTail
        rw [seqStep_fst_ok _ hcfg, seqStep_fst_ok _ hav]
      refine ⟨⟨mid, hint, by rw [ht, htt]; simp [List.append_assoc]⟩, ?_, ?_, ?_⟩
      · intro f hfmem
        rw [hcnt _ (Or.inl ⟨f, rfl⟩)]
        simp only [stepNames, List.mem_cons, List.not_mem_nil, or_false] at hfmem
        rcases hfmem with rfl | rfl | rfl | rfl | rfl | rfl | rfl <;>
          simp [preTrace, allStepNames, List.count_cons]
      · rw [hcnt _ (Or.inr (Or.inr rfl))]
        simp [preTrace, allStepNames, List.count_cons]
      · rw [ht, htt]
        simp
    · exact absurd hrm' (by simp)
  · exact absurd hr (by simp)

/-- C3 witness: the concrete fully successful run for `good@y.com` on the
clean page, under the concatenation schedule. -/
theorem claim_C3_witness :
    (∃ mid, Interleave5 (enterUsername goodPage (deriveUsername "good@y.com")).1
        (enterRejectAnnouncements goodPage).1 (enterPassword goodPage rand0).1
        (waitForUserSolvedCaptcha goodPage).1 (enterEmail goodPage "good@y.com").1 mid ∧
      goodRunTrace = preTrace "good@y.com" ++ mid ++
        (setAccountConfiguration goodPage).1 ++ (changeUserAvatar goodPage).1 ++
        [Event.browserClose]) ∧
    (∀ f ∈ stepNames, goodRunTrace.count (Event.invoke f) = 1) ∧
    goodRunTrace.count Event.browserClose = 1 ∧
    goodRunTrace.getLast? = some Event.browserClose :=
  claim_C3 runBeh_good

/-- C4: clickVisibleContinue resolves normally on every handle list and its
trace is exactly one click on the first handle whose computed-style
visibility is not `hidden` — or no click at all when no handle is visible. -/
theorem claim_C4 (bs : List ElemHandle) :
    (clickVisibleContinue bs).2 = Except.ok () ∧
    (clickVisibleContinue bs).1 =
      (match bs.find? (fun b => !b.visibilityHidden) with
       | some b => [Event.clickEl b.id]
       | none => []) :=
  ⟨clickVisibleContinue_snd bs, clickVisibleContinue_fst bs⟩

/-- C5 (amended): for every non-negative length and non-empty alphabet,
generatePassword returns a string of exactly that many characters, each
drawn from the alphabet; length 0 yields the empty string.  (The unamended
claim also covered negative lengths; `claim_C5_counterexample` shows those
raise a RangeError instead of yielding an empty string.) -/
theorem claim_C5 (L : Int) (characters : String) (rand : Nat → Nat)
    (hL : 0 ≤ L) (hc : characters ≠ "") :
    ∃ s, generatePassword L characters rand = Except.ok s ∧
      s.length = L.toNat ∧ ∀ c ∈ s.data, c ∈ characters.data := by
  refine ⟨String.mk (passwordChars L.toNat characters rand), ?_, ?_, ?_⟩
  · unfold generatePassword
    rw [if_neg (not_lt.mpr hL)]
  · show (passwordChars L.toNat characters rand).length = L.toNat
    simp [passwordChars]
  · exact mem_passwordChars hc L.toNat rand

/-- C5 counterexample: at length −1 the generator raises the typed-array
RangeError rather than returning an empty string, refuting "no error
conditions" and "every length ≤ 0 yields an empty string". -/
theorem claim_C5_counterexample :
    generatePassword (-1) defaultPasswordChars rand0 =
      Except.error "RangeError: Invalid typed array length" ∧
    generatePassword (-1) defaultPasswordChars rand0 ≠ Except.ok "" := by
  refine ⟨rfl, ?_⟩
  intro h
  rw [show generatePassword (-1) defaultPasswordChars rand0 =
    Except.error "RangeError: Invalid typed array length" from rfl] at h
  exact absurd h (by simp)

/-- C5 witness: length 3 over the alphabet "ab". -/
theorem claim_C5_witness :
    (0 : Int) ≤ 3 ∧ ("ab" : String) ≠ "" ∧
    ∃ s, generatePassword 3 "ab" rand0 = Except.ok s ∧
      s.length = (3 : Int).toNat ∧ ∀ c ∈ s.data, c ∈ ("ab" : String).data :=
  ⟨by decide, by decide, claim_C5 3 "ab" rand0 (by decide) (by decide)⟩

/-- C6 (amended): waitForUserSolvedCaptcha performs exactly two
element waits: the visibility wait for the Create-account button with
`timeout: 0` (unbounded), and then the enabled wait with the library's
default finite timeout — so the captcha wait is not unbounded throughout and
can fail with a timeout error; when the waits complete the function resolves
normally.  (The unamended claim said both waits have no timeout;
`claim_C6_counterexample` refutes that.) -/
theorem claim_C6 (pg : Page) :
    (waitForUserSolvedCaptcha pg).1.filter isXPathWait =
      [Event.waitXPath selCreateAccount true true,
       Event.waitXPath selCreateAccountEnabled false false] ∧
    (waitForUserSolvedCaptcha pg).2 = Except.ok () := by
  constructor
  · unfold waitForUserSolvedCaptcha
    rw [withEvents_fst, List.filter_append, clickVisibleContinue_fst]
    cases (pg.xpath selCreateAccountEnabled).find? (fun b => !b.visibilityHidden) <;>
      simp [isXPathWait]
  · unfold waitForUserSolvedCaptcha
    rw [withEvents_snd]
    exact clickVisibleContinue_snd _

/-- C6 counterexample: not every waitForXPath performed by
waitForUserSolvedCaptcha is configured with `timeout: 0` — the enabled wait
(src/index.js:211) passes no options and is bounded by the library default,
refuting "waits with no timeout ... never fails with a timeout error". -/
theorem claim_C6_counterexample :
    unboundedXPathWaits (waitForUserSolvedCaptcha goodPage).1 = false := rfl

/-- C7: the batch driver attempts exactly the non-empty trimmed emails of
the input lines, in order, whatever the per-email outcomes are — a failing
email is caught and logged and every later email is still attempted. -/
theorem claim_C7 (run : String → Except String Unit) (lines : List String) :
    attemptsOf (runDriver run lines) = worklist lines ∧
    ∀ email err, email ∈ worklist lines → run email = Except.error err →
      DriverEvent.caughtLog err ∈ runDriver run lines := by
  constructor
  · exact attempts_processEmails run _
  · intro email err hmem hrun
    unfold worklist at hmem
    rw [List.mem_filter] at hmem
    exact caught_processEmails run _ email err hmem.1 (by simpa using hmem.2) hrun

/-- C7 witness: the spec's test line with a failing first email: both emails
are attempted in order and the error is logged. -/
theorem claim_C7_witness :
    attemptsOf (runDriver runOracle1 ["a@x.com, ,b@y.com,"]) = ["a@x.com", "b@y.com"] ∧
    DriverEvent.caughtLog "boom" ∈ runDriver runOracle1 ["a@x.com, ,b@y.com,"] := by
  constructor
  · rw [(claim_C7 runOracle1 ["a@x.com, ,b@y.com,"]).1]
    decide
  · exact (claim_C7 runOracle1 ["a@x.com, ,b@y.com,"]).2 "a@x.com" "boom"
      (by decide) (by rfl)

/-- C8: the derived username is the local part of the email (the part before
the first `@`, with the domain discarded) with every non-alphanumeric
character replaced by `x`; in particular `jane.doe+test@example.com` derives
`janexdoextest`. -/
theorem claim_C8 :
    (∀ email : String, deriveUsername email =
      String.mk ((email.data.takeWhile (fun c => c ≠ '@')).map
        (fun c => if c.isAlphanum then c else 'x'))) ∧
    deriveUsername "jane.doe+test@example.com" = "janexdoextest" := by
  constructor
  · intro email
    simp [deriveUsername, isAsciiAlphanumeric_eq_isAlphanum]
  · decide

/-- C9 (amended): the default password alphabet is the specific 68-character
set of the ten digits, the 26 upper-case and 26 lower-case letters, and the
six punctuation characters `~!@-#$` (all distinct), and every character of a
password generated with the default arguments is drawn from it.  (The
unamended claim said 70 characters; `claim_C9_counterexample` refutes
that.) -/
theorem claim_C9 :
    defaultPasswordChars.length = 68 ∧
    defaultPasswordChars.data.Nodup ∧
    (∀ rand : Nat → Nat, ∀ c ∈ passwordChars 20 defaultPasswordChars rand,
      c ∈ defaultPasswordChars.data) := by
  refine ⟨by decide, by decide, ?_⟩
  intro rand
  exact mem_passwordChars (by decide) 20 rand

/-- C9 counterexample: the default alphabet does not have 70 characters. -/
theorem claim_C9_counterexample : ¬ defaultPasswordChars.length = 70 := by decide

/-- C9 witness: with the constant-zero randomness stream the generated
default-argument password consists of characters of the default alphabet. -/
theorem claim_C9_witness :
    defaultPasswordChars.length = 68 ∧ '0' ∈ defaultPasswordChars.data :=
  ⟨claim_C9.1, claim_C9.2.2 rand0 '0' (by decide)⟩

/-- C10: for an email without `@`, JavaScript `split("@")[0]` is the whole
input, so the derived username is the whole string with every
non-alphanumeric character replaced by `x`, and derivation proceeds without
error. -/
theorem claim_C10 (email : String) (h : ∀ c ∈ email.data, c ≠ '@') :
    deriveUsername email =
      String.mk (email.data.map (fun c => if isAsciiAlphanumeric c then c else 'x')) := by
  unfold deriveUsername
  have heq : email.data.takeWhile (fun c => c ≠ '@') = email.data :=
    List.takeWhile_eq_self_iff.mpr (fun c hcmem => by simpa using h c hcmem)
  rw [heq]

/-- C10 witness: `user.name-1` has no `@` and derives `userxnamex1`. -/
theorem claim_C10_witness :
    (∀ c ∈ ("user.name-1" : String).data, c ≠ '@') ∧
    deriveUsername "user.name-1" = "userxnamex1" := by
  refine ⟨by decide, ?_⟩
  rw [claim_C10 "user.name-1" (by decide)]
  decide
